import Mathlib

/-!
Verification of the UBX binary protocol engine in `cgps.py`
(meshtastic-hab-bot-v2): checksum computation, frame assembly, and the
blocking read loops that wait for ACK/NAK and for the CFG-NAV5 poll reply.

Bytes are modelled as natural numbers; byte sequences as `List Nat`.
The serial stream is a finite `List Nat`; the while-loops of `read_ack`
and `query_dynamic_model` are modelled with an explicit fuel argument
counting remaining loop iterations (the 2-second deadline for `read_ack`;
for the deadline-free `query_dynamic_model` loop, exhausting every fuel
bound models non-termination).
-/

/-- Model of `__ubx_checksum` in `cgps.py`: the loop accumulates
`checksum_a = checksum_a + byte; checksum_b = checksum_a + checksum_b`
over unbounded integers. -/
def ubxChecksumLoop : List Nat → Nat → Nat → Nat × Nat
  | [], a, b => (a, b)
  | x :: xs, a, b => ubxChecksumLoop xs (a + x) ((a + x) + b)

/-- `__ubx_checksum(prefix_and_payload)`: unbounded accumulation, each
accumulator reduced modulo 256 once at the end, returned as a 2-byte
sequence. -/
def ubx_checksum_private (l : List Nat) : List Nat :=
  [(ubxChecksumLoop l 0 0).1 % 256, (ubxChecksumLoop l 0 0).2 % 256]

/-- Model of the loop of the utility `ubx_checksum` in `cgps.py`:
`ck_a = (ck_a + b) & 0xFF; ck_b = (ck_b + ck_a) & 0xFF`, masking after
every addition. -/
def ubxChecksumLoopMasked : List Nat → Nat → Nat → Nat × Nat
  | [], a, b => (a, b)
  | x :: xs, a, b => ubxChecksumLoopMasked xs ((a + x) % 256) ((b + ((a + x) % 256)) % 256)

/-- `ubx_checksum(payload)`: step-wise masked accumulation, returned as a
2-byte sequence. -/
def ubx_checksum (l : List Nat) : List Nat :=
  [(ubxChecksumLoopMasked l 0 0).1, (ubxChecksumLoopMasked l 0 0).2]

/-- `ubx_assemble_packet(class_id, message_id, payload)`: sync bytes,
class, id, 16-bit little-endian length, payload, checksum over
class/id/length/payload. `int.to_bytes(2, 'little')` raises for
`len(payload) >= 2^16`, modelled by `none`. -/
def ubx_assemble_packet (class_id message_id : Nat) (payload : List Nat) : Option (List Nat) :=
  if payload.length < 65536 then
    some ([0xB5, 0x62]
      ++ [class_id, message_id]
      ++ [payload.length % 256, payload.length / 256]
      ++ payload
      ++ ubx_checksum_private ([class_id, message_id]
           ++ [payload.length % 256, payload.length / 256] ++ payload))
  else none

/-- Decoder following the wire layout of the spec (section 6): 2 sync
bytes `B5 62`, class, id, 16-bit little-endian length, `length` payload
bytes, 2 checksum bytes, nothing further. Returns
`(class, id, length, payload, checksum)`. -/
def ubx_decode (frame : List Nat) :
    Option (Nat × Nat × Nat × List Nat × List Nat) :=
  match frame with
  | s1 :: s2 :: c :: i :: l0 :: l1 :: rest =>
    if s1 = 0xB5 ∧ s2 = 0x62 then
      let len := l0 + 256 * l1
      if rest.length = len + 2 then
        some (c, i, len, rest.take len, rest.drop len)
      else none
    else none
  | _ => none

/-- The hardcoded 36-byte CFG-NAV5 payload of `enable_flight_mode`. -/
def flight_mode_payload : List Nat :=
  [0xFF, 0xFF, 0x06, 0x03, 0x00, 0x00, 0x00, 0x00, 0x10, 0x27, 0x00, 0x00,
   0x05, 0x00, 0xFA, 0x00, 0xFA, 0x00, 0x64, 0x00, 0x2C, 0x01, 0x00, 0x00,
   0x00, 0x00, 0x00, 0x00, 0x00, 0x00, 0x00, 0x00, 0x00, 0x00, 0x00, 0x00]

/-- The bytes `enable_flight_mode` writes to the serial port:
`ubx_assemble_packet(0x06, 0x24, payload)` with the hardcoded payload. -/
def enable_flight_mode_packet : Option (List Nat) :=
  ubx_assemble_packet 0x06 0x24 flight_mode_payload

/-- The 4-byte CFG-RST payload of `reboot_my_gps`: `FF 87 00 00`. -/
def reboot_payload : List Nat := [0xFF, 0x87, 0x00, 0x00]

/-- The frame `reboot_my_gps` sends: class `0x06`, id `0x04`, payload
`FF 87 00 00`. -/
def reboot_packet : Option (List Nat) :=
  ubx_assemble_packet 0x06 0x04 reboot_payload

/-- The leading 16-bit little-endian field of a CFG-RST payload, the
navigation-data retention mask per the spec (section 3). -/
def retention_mask (p : List Nat) : Nat := p.getD 0 0 + 256 * p.getD 1 0

/-- Result of the bounded ACK wait `read_ack`: `acked` models Python's
`True`, `naked` models `False`, `timedOut` models `None` (deadline
elapsed), and `streamError` models the uncaught `struct.error` raised
when fewer than two length bytes can be read. -/
inductive AckResult
  | acked
  | naked
  | timedOut
  | streamError
  deriving DecidableEq, Repr

/-- Model of `read_ack(serial_port, msg_class, msg_id, timeout=2)`.
The stream is a finite byte list; `serial_port.read(n)` yields the next
`min(n, remaining)` bytes. Fuel counts the outer while-loop iterations
the 2-second deadline still allows; fuel 0 is the deadline elapsing
(`return None`). One iteration: read 1 byte, on `0xB5` read 1 more, on
`0x62` read 2 header bytes, 2 little-endian length bytes, `length`
payload bytes and 2 checksum bytes, then classify. -/
def read_ack (msgClass msgId : Nat) : Nat → List Nat → AckResult
  | 0, _ => .timedOut
  | fuel + 1, s =>
    match s with
    | [] => read_ack msgClass msgId fuel []
    | b :: s1 =>
      if b = 0xB5 then
        match s1 with
        | [] => read_ack msgClass msgId fuel []
        | b2 :: s2 =>
          if b2 = 0x62 then
            match s2 with
            | h1 :: h2 :: l0 :: l1 :: s3 =>
              let len := l0 + 256 * l1
              let payload := s3.take len
              let s4 := (s3.drop len).drop 2
              if h1 = 0x05 ∧ h2 = 0x01 ∧ payload.take 2 = [msgClass, msgId] then
                AckResult.acked
              else if h1 = 0x05 ∧ h2 = 0x00 ∧ payload.take 2 = [msgClass, msgId] then
                AckResult.naked
              else
                read_ack msgClass msgId fuel s4
            | _ => AckResult.streamError
          else read_ack msgClass msgId fuel s2
      else read_ack msgClass msgId fuel s1

/-- Result of the `query_dynamic_model` wait loop: `responded m` is the
`return dyn_model` path, `indexError` models the uncaught `IndexError`
of `payload[2]` on a too-short payload, `streamError` the uncaught
`struct.error` on a truncated read, and `outOfFuel` marks that the given
iteration bound was exhausted with the `while True` loop still running
(the loop has no deadline of its own). -/
inductive QueryResult
  | responded (model : Nat)
  | indexError
  | streamError
  | outOfFuel
  deriving DecidableEq, Repr

/-- Model of the `while True` read loop of `query_dynamic_model`:
identical scanning to `read_ack`, but the match is header `(0x06, 0x24)`
with length field at least 2, returning `payload[2]`. -/
def query_loop : Nat → List Nat → QueryResult
  | 0, _ => .outOfFuel
  | fuel + 1, s =>
    match s with
    | [] => query_loop fuel []
    | b :: s1 =>
      if b = 0xB5 then
        match s1 with
        | [] => query_loop fuel []
        | b2 :: s2 =>
          if b2 = 0x62 then
            match s2 with
            | h1 :: h2 :: l0 :: l1 :: s3 =>
              let len := l0 + 256 * l1
              let payload := s3.take len
              let s4 := (s3.drop len).drop 2
              if h1 = 0x06 ∧ h2 = 0x24 ∧ 2 ≤ len then
                match payload[2]? with
                | some m => QueryResult.responded m
                | none => QueryResult.indexError
              else
                query_loop fuel s4
            | _ => QueryResult.streamError
          else query_loop fuel s2
      else query_loop fuel s1

/-- The poll message `query_dynamic_model` writes before its wait loop:
a zero-length CFG-NAV5 poll plus its checksum. -/
def query_poll_msg : List Nat :=
  [0xB5, 0x62, 0x06, 0x24, 0x00, 0x00] ++ ubx_checksum [0x06, 0x24, 0x00, 0x00]

/-- A complete wire frame: sync bytes, header `(h1, h2)`, little-endian
length of `p`, payload `p`, and two trailing checksum bytes `c1 c2`
(arbitrary, since the receive loops never check them). -/
def mkFrame (h1 h2 : Nat) (p : List Nat) (c1 c2 : Nat) : List Nat :=
  0xB5 :: 0x62 :: h1 :: h2 :: (p.length % 256) :: (p.length / 256) :: (p ++ [c1, c2])

/-- Streams on which the ACK wait for `(msgClass, msgId)` never finds a
match: any mix of non-sync junk bytes and well-framed messages that are
neither a matching ACK nor a matching NAK. -/
inductive AckNonMatching (msgClass msgId : Nat) : List Nat → Prop
  | nil : AckNonMatching msgClass msgId []
  | junk (b : Nat) (r : List Nat) :
      b ≠ 0xB5 → AckNonMatching msgClass msgId r →
      AckNonMatching msgClass msgId (b :: r)
  | frame (h1 h2 : Nat) (p : List Nat) (c1 c2 : Nat) (r : List Nat) :
      p.length < 65536 →
      ¬(h1 = 0x05 ∧ h2 = 0x01 ∧ p.take 2 = [msgClass, msgId]) →
      ¬(h1 = 0x05 ∧ h2 = 0x00 ∧ p.take 2 = [msgClass, msgId]) →
      AckNonMatching msgClass msgId r →
      AckNonMatching msgClass msgId (mkFrame h1 h2 p c1 c2 ++ r)

/-- Streams that never contain a well-framed frame with header
`(0x06, 0x24)` and length field at least 2: any mix of non-sync junk
bytes and well-framed non-matching messages. -/
inductive QueryNonMatching : List Nat → Prop
  | nil : QueryNonMatching []
  | junk (b : Nat) (r : List Nat) :
      b ≠ 0xB5 → QueryNonMatching r → QueryNonMatching (b :: r)
  | frame (h1 h2 : Nat) (p : List Nat) (c1 c2 : Nat) (r : List Nat) :
      p.length < 65536 →
      ¬(h1 = 0x06 ∧ h2 = 0x24 ∧ 2 ≤ p.length) →
      QueryNonMatching r →
      QueryNonMatching (mkFrame h1 h2 p c1 c2 ++ r)

/-- Two streams of well-framed messages that agree frame by frame on
header, length and payload and differ at most in the two trailing
checksum bytes of each frame. -/
inductive ChkEquiv : List Nat → List Nat → Prop
  | nil : ChkEquiv [] []
  | frame (h1 h2 : Nat) (p : List Nat) (c1 c2 d1 d2 : Nat) (r r2 : List Nat) :
      ChkEquiv r r2 →
      ChkEquiv (mkFrame h1 h2 p c1 c2 ++ r) (mkFrame h1 h2 p d1 d2 ++ r2)

/-! ### Helper lemmas about the loops and the checksum -/

theorem read_ack_step (msgClass msgId fuel h1 h2 : Nat) (p : List Nat) (c1 c2 : Nat)
    (r : List Nat) :
    read_ack msgClass msgId (fuel + 1) (mkFrame h1 h2 p c1 c2 ++ r) =
      if h1 = 0x05 ∧ h2 = 0x01 ∧ p.take 2 = [msgClass, msgId] then .acked
      else if h1 = 0x05 ∧ h2 = 0x00 ∧ p.take 2 = [msgClass, msgId] then .naked
      else read_ack msgClass msgId fuel r := by
  have hlen : p.length % 256 + 256 * (p.length / 256) = p.length := Nat.mod_add_div _ _
  simp only [mkFrame, List.cons_append, List.append_assoc]
  simp only [read_ack, hlen]
  rw [List.take_left' rfl, List.drop_left' rfl]
  simp

theorem query_loop_step (fuel h1 h2 : Nat) (p : List Nat) (c1 c2 : Nat) (r : List Nat) :
    query_loop (fuel + 1) (mkFrame h1 h2 p c1 c2 ++ r) =
      if h1 = 0x06 ∧ h2 = 0x24 ∧ 2 ≤ p.length then
        (match p[2]? with
         | some m => QueryResult.responded m
         | none => QueryResult.indexError)
      else query_loop fuel r := by
  have hlen : p.length % 256 + 256 * (p.length / 256) = p.length := Nat.mod_add_div _ _
  simp only [mkFrame, List.cons_append, List.append_assoc]
  simp only [query_loop, hlen]
  rw [List.take_left' rfl, List.drop_left' rfl]
  simp

theorem read_ack_nonmatching (msgClass msgId : Nat) :
    ∀ fuel s, AckNonMatching msgClass msgId s →
      read_ack msgClass msgId fuel s = .timedOut := by
  intro fuel
  induction fuel with
  | zero => intro s _; rfl
  | succ n ih =>
    intro s hs
    cases hs with
    | nil =>
      have h0 : read_ack msgClass msgId (n + 1) [] = read_ack msgClass msgId n [] := by
        simp only [read_ack]
      rw [h0]
      exact ih [] AckNonMatching.nil
    | junk b r hb hr =>
      have h0 : read_ack msgClass msgId (n + 1) (b :: r) = read_ack msgClass msgId n r := by
        simp only [read_ack]
        rw [if_neg hb]
      rw [h0]
      exact ih r hr
    | frame h1 h2 p c1 c2 r hp hna hnn hr =>
      rw [read_ack_step, if_neg hna, if_neg hnn]
      exact ih r hr

theorem query_loop_nonmatching :
    ∀ fuel s, QueryNonMatching s → query_loop fuel s = .outOfFuel := by
  intro fuel
  induction fuel with
  | zero => intro s _; rfl
  | succ n ih =>
    intro s hs
    cases hs with
    | nil =>
      have h0 : query_loop (n + 1) [] = query_loop n [] := by
        simp only [query_loop]
      rw [h0]
      exact ih [] QueryNonMatching.nil
    | junk b r hb hr =>
      have h0 : query_loop (n + 1) (b :: r) = query_loop n r := by
        simp only [query_loop]
        rw [if_neg hb]
      rw [h0]
      exact ih r hr
    | frame h1 h2 p c1 c2 r hp hnm hr =>
      rw [query_loop_step, if_neg hnm]
      exact ih r hr

theorem read_ack_chk_irrelevant (msgClass msgId : Nat) :
    ∀ fuel s s2, ChkEquiv s s2 →
      read_ack msgClass msgId fuel s = read_ack msgClass msgId fuel s2 := by
  intro fuel
  induction fuel with
  | zero => intro s s2 _; rfl
  | succ n ih =>
    intro s s2 h
    cases h with
    | nil => rfl
    | frame h1 h2 p c1 c2 d1 d2 r r2 hr =>
      rw [read_ack_step, read_ack_step]
      split_ifs
      · rfl
      · rfl
      · exact ih r r2 hr

theorem query_loop_chk_irrelevant :
    ∀ fuel s s2, ChkEquiv s s2 → query_loop fuel s = query_loop fuel s2 := by
  intro fuel
  induction fuel with
  | zero => intro s s2 _; rfl
  | succ n ih =>
    intro s s2 h
    cases h with
    | nil => rfl
    | frame h1 h2 p c1 c2 d1 d2 r r2 hr =>
      rw [query_loop_step, query_loop_step]
      split_ifs
      · rfl
      · exact ih r r2 hr

theorem query_loop_responded (fuel : Nat) (p : List Nat) (c1 c2 : Nat) (r : List Nat)
    (hlen : 3 ≤ p.length) :
    p[2]? = some (p.getD 2 0) ∧
      query_loop (fuel + 1) (mkFrame 0x06 0x24 p c1 c2 ++ r) = .responded (p.getD 2 0) := by
  have h2 : 2 < p.length := hlen
  have hsome : p[2]? = some (p.getD 2 0) := by
    rw [List.getElem?_eq_getElem h2, List.getD_eq_getElem _ _ h2]
  refine ⟨hsome, ?_⟩
  rw [query_loop_step, if_pos ⟨rfl, rfl, by omega⟩, hsome]

theorem read_ack_no_sync (msgClass msgId : Nat) :
    ∀ fuel s, 0xB5 ∉ s → read_ack msgClass msgId fuel s = .timedOut := by
  intro fuel
  induction fuel with
  | zero => intro s _; rfl
  | succ n ih =>
    intro s hs
    match s with
    | [] =>
      have h0 : read_ack msgClass msgId (n + 1) [] = read_ack msgClass msgId n [] := by
        simp only [read_ack]
      rw [h0]
      exact ih [] hs
    | b :: t =>
      simp only [List.mem_cons, not_or] at hs
      have h0 : read_ack msgClass msgId (n + 1) (b :: t) = read_ack msgClass msgId n t := by
        simp only [read_ack]
        rw [if_neg (fun h => hs.1 h.symm)]
      rw [h0]
      exact ih t hs.2

theorem ubxChecksumLoopMasked_mod :
    ∀ l a b, ubxChecksumLoopMasked l (a % 256) (b % 256) =
      ((ubxChecksumLoop l a b).1 % 256, (ubxChecksumLoop l a b).2 % 256) := by
  intro l
  induction l with
  | nil => intro a b; rfl
  | cons x xs ih =>
    intro a b
    simp only [ubxChecksumLoopMasked, ubxChecksumLoop]
    have e1 : (a % 256 + x) % 256 = (a + x) % 256 := by omega
    have e2 : (b % 256 + (a + x) % 256) % 256 = ((a + x) + b) % 256 := by omega
    rw [e1, e2]
    exact ih (a + x) ((a + x) + b)

/-! ### Claim theorems -/

/-- The packet that claim C1 describes: sync/class/id/length bytes
`B5 62 06 24 24 00`, then a payload with mask `0x0001`, dynamic-model
byte 6, fix-mode byte 2 followed by 30 zero bytes, then the checksum
over the class/id/length/payload bytes. Stated from the claim's words,
for comparison against `enable_flight_mode_packet`. -/
def spec_claimed_set_packet : List Nat :=
  [0xB5, 0x62, 0x06, 0x24, 0x24, 0x00, 0x01, 0x00, 0x06, 0x02]
    ++ List.replicate 30 0
    ++ ubx_checksum_private
        ([0x06, 0x24, 0x24, 0x00, 0x01, 0x00, 0x06, 0x02] ++ List.replicate 30 0)

/-- C1 counterexample: the bytes `enable_flight_mode` actually writes are
not the bytes the claim lists — the payload sent is the hardcoded
`FF FF 06 03 ...` string (mask `0xFFFF`, fix-mode 3), not
`01 00 06 02 ...` (mask `0x0001`, fix-mode 2). -/
theorem C1_counterexample :
    enable_flight_mode_packet ≠ some spec_claimed_set_packet := by decide

/-- C1 (amended): invoking the set-dynamic-model operation
(`enable_flight_mode`) writes exactly the bytes `B5 62 06 24 24 00`
followed by the hardcoded 36-byte CFG-NAV5 payload
`FF FF 06 03 00 00 00 00 10 27 00 00 05 00 FA 00 FA 00 64 00 2C 01` plus
14 zero bytes — mask `0xFFFF`, dynamic-model byte 6, fix-mode byte 3 —
and then the two checksum bytes `16 DC` computed over the
class/id/length/payload bytes. -/
theorem C1_set_packet_bytes :
    enable_flight_mode_packet = some
      [0xB5, 0x62, 0x06, 0x24, 0x24, 0x00,
       0xFF, 0xFF, 0x06, 0x03, 0x00, 0x00, 0x00, 0x00, 0x10, 0x27, 0x00, 0x00,
       0x05, 0x00, 0xFA, 0x00, 0xFA, 0x00, 0x64, 0x00, 0x2C, 0x01, 0x00, 0x00,
       0x00, 0x00, 0x00, 0x00, 0x00, 0x00, 0x00, 0x00, 0x00, 0x00, 0x00, 0x00,
       0x16, 0xDC] := by decide

/-- C2: for every finite byte sequence, the two checksum implementations
of `cgps.py` — `__ubx_checksum`, which accumulates unbounded integers and
reduces each accumulator modulo 256 once at the end, and `ubx_checksum`,
which masks both accumulators after every addition — return the same two
checksum bytes. -/
theorem C2_checksum_equivalence (l : List Nat) :
    ubx_checksum_private l = ubx_checksum l := by
  have h := ubxChecksumLoopMasked_mod l 0 0
  simp only [Nat.zero_mod] at h
  simp only [ubx_checksum_private, ubx_checksum, h]

/-- C3: for every class id, message id and payload of at most 65535
bytes, `ubx_assemble_packet` succeeds and parsing its output per the
wire layout — 2 sync bytes, class, id, 16-bit little-endian length,
payload, 2 checksum bytes — recovers the original class, id and payload;
the length field equals the actual payload length; and the trailing two
bytes are the checksum over the class/id/length/payload bytes, never
including the sync bytes. -/
theorem C3_roundtrip_framing (c i : Nat) (p : List Nat)
    (hc : c < 256) (hi : i < 256) (hp : p.length ≤ 65535) :
    ∃ f, ubx_assemble_packet c i p = some f ∧
      ubx_decode f = some (c, i, p.length, p,
        ubx_checksum_private ([c, i, p.length % 256, p.length / 256] ++ p)) := by
  have hlt : p.length < 65536 := by omega
  have hmod : p.length % 256 + 256 * (p.length / 256) = p.length := Nat.mod_add_div _ _
  refine ⟨[0xB5, 0x62] ++ [c, i] ++ [p.length % 256, p.length / 256] ++ p
      ++ ubx_checksum_private ([c, i] ++ [p.length % 256, p.length / 256] ++ p),
    by simp only [ubx_assemble_packet, if_pos hlt], ?_⟩
  simp only [List.cons_append, List.nil_append, List.append_assoc]
  simp only [ubx_decode, hmod]
  have hck : (ubx_checksum_private (c :: i :: p.length % 256 :: p.length / 256 :: p)).length
      = 2 := by
    simp [ubx_checksum_private]
  rw [if_pos ⟨trivial, trivial⟩, if_pos (by simp [List.length_append, hck])]
  rw [List.take_left' rfl, List.drop_left' rfl]

/-- C3 witness: the round-trip theorem applied at class `0x06`, id
`0x24` and a concrete 3-byte payload. -/
theorem C3_roundtrip_framing_witness :
    ∃ f, ubx_assemble_packet 0x06 0x24 [1, 2, 3] = some f ∧
      ubx_decode f = some (0x06, 0x24, ([1, 2, 3] : List Nat).length, [1, 2, 3],
        ubx_checksum_private ([0x06, 0x24, ([1, 2, 3] : List Nat).length % 256,
          ([1, 2, 3] : List Nat).length / 256] ++ [1, 2, 3])) :=
  C3_roundtrip_framing 0x06 0x24 [1, 2, 3] (by decide) (by decide) (by decide)

/-- C9 counterexample: the leading 16-bit little-endian retention mask of
the CFG-RST payload `reboot_my_gps` sends is not `0xFFFF`. -/
theorem C9_counterexample : retention_mask reboot_payload ≠ 0xFFFF := by decide

/-- C9 (amended): the cold-start reset operation `reboot_my_gps` sends a
single frame with class `0x06`, id `0x04` and the 4-byte CFG-RST payload
`FF 87 00 00`, whose leading 16-bit little-endian navigation-data
retention mask equals `0x87FF` (reset-type byte `0x00`, reserved byte
`0x00`). -/
theorem C9_reset_packet :
    reboot_packet = some
        [0xB5, 0x62, 0x06, 0x04, 0x04, 0x00, 0xFF, 0x87, 0x00, 0x00, 0x94, 0xF5]
      ∧ retention_mask reboot_payload = 0x87FF := by decide

/-- C4: the bounded ACK wait of the set-dynamic-model operation yields
exactly one of three mutually distinct results: `acked` (Success) when a
well-framed frame with header `(0x05, 0x01)` and payload starting with
`(0x06, 0x24)` arrives while the deadline allows another iteration,
`naked` (Rejected) when such a frame with header `(0x05, 0x00)` arrives
instead, and `timedOut` (Unknown) when the deadline elapses over a
stream with no matching frame; the three constructors are pairwise
distinct, so a timeout is never reported as a rejection and the caller
can distinguish all three. -/
theorem C4_ack_tristate (t : List Nat) (c1 c2 : Nat) (r s : List Nat) (fa fn g : Nat)
    (ht : t.length < 65534) (hs : AckNonMatching 0x06 0x24 s) :
    read_ack 0x06 0x24 (fa + 1) (mkFrame 0x05 0x01 ([0x06, 0x24] ++ t) c1 c2 ++ r)
        = .acked ∧
      read_ack 0x06 0x24 (fn + 1) (mkFrame 0x05 0x00 ([0x06, 0x24] ++ t) c1 c2 ++ r)
        = .naked ∧
      read_ack 0x06 0x24 g s = .timedOut ∧
      AckResult.acked ≠ AckResult.naked ∧
      AckResult.acked ≠ AckResult.timedOut ∧
      AckResult.naked ≠ AckResult.timedOut := by
  refine ⟨?_, ?_, read_ack_nonmatching 0x06 0x24 g s hs, by decide, by decide, by decide⟩
  · rw [read_ack_step, if_pos ⟨rfl, rfl, rfl⟩]
  · rw [read_ack_step, if_neg (by simp), if_pos ⟨rfl, rfl, rfl⟩]

/-- C4 witness: the tri-state theorem applied to a concrete ACK frame,
a concrete NAK frame and the empty stream. -/
theorem C4_ack_tristate_witness :
    read_ack 0x06 0x24 (0 + 1) (mkFrame 0x05 0x01 ([0x06, 0x24] ++ []) 0 0 ++ [])
        = .acked ∧
      read_ack 0x06 0x24 (0 + 1) (mkFrame 0x05 0x00 ([0x06, 0x24] ++ []) 0 0 ++ [])
        = .naked ∧
      read_ack 0x06 0x24 5 [] = .timedOut ∧
      AckResult.acked ≠ AckResult.naked ∧
      AckResult.acked ≠ AckResult.timedOut ∧
      AckResult.naked ≠ AckResult.timedOut :=
  C4_ack_tristate [] 0 0 [] [] 0 0 5 (by decide) AckNonMatching.nil

/-- C5 counterexample: a well-framed frame with header `(0x06, 0x24)`
and length field exactly 2 is classified as the response, but reading
`payload[2]` from its 2-byte payload is out of bounds — the loop raises
an index error rather than returning a model byte. -/
theorem C5_counterexample :
    query_loop 1 (mkFrame 0x06 0x24 [0x00, 0x00] 0x00 0x00) = .indexError := by
  decide

/-- C5 (amended): for every received well-framed frame whose header is
`(0x06, 0x24)` and whose length field is at least 3, the
poll-dynamic-model wait loop classifies it as the response and returns
`payload[2]` of that frame as the dynamic-model byte, without any
out-of-bounds access; with a length field of exactly 2 the access
`payload[2]` is out of bounds. -/
theorem C5_poll_response_extraction (p : List Nat) (c1 c2 : Nat) (r : List Nat)
    (fuel : Nat) (hp : p.length < 65536) (hlen : 3 ≤ p.length) :
    ∃ m, p[2]? = some m ∧
      query_loop (fuel + 1) (mkFrame 0x06 0x24 p c1 c2 ++ r) = .responded m :=
  ⟨p.getD 2 0, (query_loop_responded fuel p c1 c2 r hlen).1,
    (query_loop_responded fuel p c1 c2 r hlen).2⟩

/-- C5 witness: the amended extraction theorem applied to a concrete
3-byte CFG-NAV5 response payload carrying model byte 6. -/
theorem C5_poll_response_extraction_witness :
    ∃ m, ([0x00, 0x00, 0x06] : List Nat)[2]? = some m ∧
      query_loop (0 + 1) (mkFrame 0x06 0x24 [0x00, 0x00, 0x06] 0 0 ++ [])
        = .responded m :=
  C5_poll_response_extraction [0x00, 0x00, 0x06] 0 0 [] 0 (by decide) (by decide)

/-- C6 counterexample: on a stream whose first (and only) well-framed
frame has header `(0x06, 0x24)` and length field 2 — a frame the claim
says the operation returns on — the loop exits with an index error
instead of returning a dynamic-model byte. -/
theorem C6_counterexample :
    query_loop 1 (mkFrame 0x06 0x24 [0x07, 0x08] 0x00 0x00) = .indexError := by
  decide

/-- C6 (amended): the poll-dynamic-model wait loop has no deadline: on a
stream of junk bytes and well-framed frames never containing a frame
with header `(0x06, 0x24)` and length field at least 2, the loop runs
out of any iteration bound (it never returns); it does return the model
byte as soon as the first frame with header `(0x06, 0x24)` appears,
provided that frame's length field is at least 3 (at exactly 2 it raises
an index error instead). -/
theorem C6_unbounded_poll_wait (s : List Nat) (hs : QueryNonMatching s)
    (p : List Nat) (c1 c2 : Nat) (r : List Nat) (fuel : Nat)
    (hp : p.length < 65536) (hlen : 3 ≤ p.length) :
    (∀ g, query_loop g s = .outOfFuel) ∧
      (∃ m, p[2]? = some m ∧
        query_loop (fuel + 1) (mkFrame 0x06 0x24 p c1 c2 ++ r) = .responded m) :=
  ⟨fun g => query_loop_nonmatching g s hs,
    ⟨p.getD 2 0, (query_loop_responded fuel p c1 c2 r hlen).1,
      (query_loop_responded fuel p c1 c2 r hlen).2⟩⟩

/-- C6 witness: the unbounded-wait theorem applied to a concrete
non-matching stream (one unrelated well-framed frame) and a concrete
matching response frame. -/
theorem C6_unbounded_poll_wait_witness :
    (∀ g, query_loop g (mkFrame 0x01 0x02 [0x00] 0 0 ++ []) = .outOfFuel) ∧
      (∃ m, ([0x09, 0x09, 0x05] : List Nat)[2]? = some m ∧
        query_loop (2 + 1) (mkFrame 0x06 0x24 [0x09, 0x09, 0x05] 7 7 ++ [])
          = .responded m) :=
  C6_unbounded_poll_wait (mkFrame 0x01 0x02 [0x00] 0 0 ++ [])
    (QueryNonMatching.frame 0x01 0x02 [0x00] 0 0 [] (by decide) (by decide)
      QueryNonMatching.nil)
    [0x09, 0x09, 0x05] 7 7 [] 2 (by decide) (by decide)

/-- C7: received checksum bytes are consumed but never compared: on any
two streams of well-framed messages that agree on every header, length
and payload and differ only in the two trailing checksum bytes of their
frames, both the ACK wait loop and the poll wait loop return the same
result — a frame with a corrupted checksum that matches on header and
class/id is accepted. -/
theorem C7_checksum_bytes_ignored (s s2 : List Nat) (h : ChkEquiv s s2)
    (fuel msgClass msgId : Nat) :
    read_ack msgClass msgId fuel s = read_ack msgClass msgId fuel s2 ∧
      query_loop fuel s = query_loop fuel s2 :=
  ⟨read_ack_chk_irrelevant msgClass msgId fuel s s2 h,
    query_loop_chk_irrelevant fuel s s2 h⟩

/-- C7 witness: the checksum-irrelevance theorem applied to a concrete
ACK frame with its true checksum `32 5B` and the same frame with the
corrupted checksum `AA BB`. -/
theorem C7_checksum_bytes_ignored_witness :
    read_ack 0x06 0x24 3 (mkFrame 0x05 0x01 [0x06, 0x24] 0x32 0x5B ++ [])
        = read_ack 0x06 0x24 3 (mkFrame 0x05 0x01 [0x06, 0x24] 0xAA 0xBB ++ []) ∧
      query_loop 3 (mkFrame 0x05 0x01 [0x06, 0x24] 0x32 0x5B ++ [])
        = query_loop 3 (mkFrame 0x05 0x01 [0x06, 0x24] 0xAA 0xBB ++ []) :=
  C7_checksum_bytes_ignored
    (mkFrame 0x05 0x01 [0x06, 0x24] 0x32 0x5B ++ [])
    (mkFrame 0x05 0x01 [0x06, 0x24] 0xAA 0xBB ++ [])
    (ChkEquiv.frame 0x05 0x01 [0x06, 0x24] 0x32 0x5B 0xAA 0xBB [] [] ChkEquiv.nil)
    3 0x06 0x24

/-- C8: a stream consisting of a well-framed frame whose header is
neither the ACK header `(0x05, 0x01)` nor the NAK header `(0x05, 0x00)`,
followed by a correct ACK frame for `(0x06, 0x24)` arriving while the
deadline allows the iterations, makes the ACK wait loop discard the
first frame silently, continue scanning, and still return `acked`. -/
theorem C8_noise_tolerance (h1 h2 : Nat) (p : List Nat) (c1 c2 : Nat)
    (t : List Nat) (d1 d2 : Nat) (r : List Nat) (fuel : Nat)
    (hp : p.length < 65536) (ht : t.length < 65534)
    (hna : ¬(h1 = 0x05 ∧ h2 = 0x01)) (hnn : ¬(h1 = 0x05 ∧ h2 = 0x00)) :
    read_ack 0x06 0x24 (fuel + 2)
        (mkFrame h1 h2 p c1 c2 ++ (mkFrame 0x05 0x01 ([0x06, 0x24] ++ t) d1 d2 ++ r))
      = .acked := by
  rw [show fuel + 2 = (fuel + 1) + 1 from rfl, read_ack_step,
    if_neg (fun hcontr => hna ⟨hcontr.1, hcontr.2.1⟩),
    if_neg (fun hcontr => hnn ⟨hcontr.1, hcontr.2.1⟩),
    read_ack_step, if_pos ⟨rfl, rfl, rfl⟩]

/-- C8 witness: the noise-tolerance theorem applied to a concrete
unrelated frame (header `(0x01, 0x02)`) followed by a concrete correct
ACK frame. -/
theorem C8_noise_tolerance_witness :
    read_ack 0x06 0x24 (0 + 2)
        (mkFrame 0x01 0x02 [0x00] 9 9
          ++ (mkFrame 0x05 0x01 ([0x06, 0x24] ++ []) 0x32 0x5B ++ []))
      = .acked :=
  C8_noise_tolerance 0x01 0x02 [0x00] 9 9 [] 0x32 0x5B [] 0
    (by decide) (by decide) (by decide) (by decide)

/-- C10: there is a byte stream containing a complete, well-framed,
correctly matching ACK frame on which the ACK wait loop nevertheless
times out: the frame `B5 62 05 01 02 00 06 24 32 5B` carries the correct
checksum `32 5B` and alone is classified `acked`, yet with one stray
`0xB5` byte in front of it the scanner consumes the frame's own sync
byte while testing for `0x62`, never re-examines it, and returns
`timedOut` for every iteration budget. -/
theorem C10_stray_sync_skips_genuine_ack :
    mkFrame 0x05 0x01 [0x06, 0x24] 0x32 0x5B
        = [0xB5, 0x62, 0x05, 0x01, 0x02, 0x00, 0x06, 0x24, 0x32, 0x5B] ∧
      ubx_checksum_private [0x05, 0x01, 0x02, 0x00, 0x06, 0x24] = [0x32, 0x5B] ∧
      read_ack 0x06 0x24 1 [0xB5, 0x62, 0x05, 0x01, 0x02, 0x00, 0x06, 0x24, 0x32, 0x5B]
        = .acked ∧
      ∀ fuel, read_ack 0x06 0x24 fuel
          (0xB5 :: [0xB5, 0x62, 0x05, 0x01, 0x02, 0x00, 0x06, 0x24, 0x32, 0x5B])
        = .timedOut := by
  refine ⟨by decide, by decide, by decide, ?_⟩
  intro fuel
  match fuel with
  | 0 => rfl
  | n + 1 =>
    have h0 : read_ack 0x06 0x24 (n + 1)
        (0xB5 :: [0xB5, 0x62, 0x05, 0x01, 0x02, 0x00, 0x06, 0x24, 0x32, 0x5B])
        = read_ack 0x06 0x24 n [0x62, 0x05, 0x01, 0x02, 0x00, 0x06, 0x24, 0x32, 0x5B] := by
      simp only [read_ack]
      norm_num
    rw [h0]
    exact read_ack_no_sync 0x06 0x24 n _ (by decide)
